import Mathlib

/-
Verification of the Notify-for-HomeAssistant integration
(custom_components/notify_api): a shallow embedding in Lean 4 of the
payload construction, credential validation, config/options flows and
service-name derivation, together with theorems settling the spec's
claims about them.
-/

namespace NotifyAPI

/-! ## Constants (const.py) -/

/-- DOMAIN from const.py. -/
def DOMAIN : String := "notify_api"

/-- API_BASE_URL from const.py. -/
def API_BASE_URL : String := "https://notifypush.pingie.com/notify-json"

/-- DEFAULT_TIMEOUT from const.py (seconds). -/
def DEFAULT_TIMEOUT : Nat := 10

/-! ## Python string primitives used by the source -/

/-- Truthiness of a Python `str | None` value: `None` and `""` are falsy. -/
def strTruthy : Option String → Bool
  | none => false
  | some s => s ≠ ""

/-! ## Sender payload (notify.py, NotifyAPIService._send_notification) -/

/-- The JSON payload built by `_send_notification` (notify.py lines 211-222),
as an insertion-ordered key/value list: `{"text": message}` always, then
`title`, `iconUrl`, `groupType` each added only when the corresponding
argument is truthy (a non-empty string). -/
def buildPayload (message : String) (title iconUrl groupType : Option String) :
    List (String × String) :=
  let payload := [("text", message)]
  let payload := if strTruthy title then payload ++ [("title", title.getD "")] else payload
  let payload := if strTruthy iconUrl then payload ++ [("iconUrl", iconUrl.getD "")] else payload
  let payload := if strTruthy groupType then payload ++ [("groupType", groupType.getD "")] else payload
  payload

/-- The set of keys of a payload, in order. -/
def payloadKeys (p : List (String × String)) : List String := p.map Prod.fst

/-- The keys of the built payload, expressed by truthiness of each argument. -/
theorem keys_buildPayload (m : String) (t i g : Option String) :
    payloadKeys (buildPayload m t i g) =
      ["text"] ++ (if strTruthy t then ["title"] else []) ++
      (if strTruthy i then ["iconUrl"] else []) ++
      (if strTruthy g then ["groupType"] else []) := by
  simp only [buildPayload, payloadKeys]
  split_ifs <;> simp

/-- An optional string is truthy exactly when it is `some` non-empty string. -/
theorem strTruthy_iff (o : Option String) :
    strTruthy o = true ↔ (∃ s, o = some s ∧ s ≠ "") := by
  rcases o with _ | s <;> simp [strTruthy]

/-- Claim C1: the payload always contains key "text" bound to the message
(looked up first), and contains each of "title", "iconUrl", "groupType"
iff the corresponding argument is a non-empty string; the two concrete
examples produce exactly the stated payloads. -/
theorem sendPayload_spec (m : String) (t i g : Option String) :
    (buildPayload m t i g).lookup "text" = some m ∧
    (("title" ∈ payloadKeys (buildPayload m t i g)) ↔ (∃ s, t = some s ∧ s ≠ "")) ∧
    (("iconUrl" ∈ payloadKeys (buildPayload m t i g)) ↔ (∃ s, i = some s ∧ s ≠ "")) ∧
    (("groupType" ∈ payloadKeys (buildPayload m t i g)) ↔ (∃ s, g = some s ∧ s ≠ "")) ∧
    buildPayload "hello" none none none = [("text", "hello")] ∧
    buildPayload "hello" (some "T") (some "U") (some "G") =
      [("text", "hello"), ("title", "T"), ("iconUrl", "U"), ("groupType", "G")] := by
  refine ⟨?_, ?_, ?_, ?_, rfl, rfl⟩
  · simp only [buildPayload]
    split_ifs <;> simp [List.lookup]
  all_goals rw [keys_buildPayload, ← strTruthy_iff]
  all_goals split_ifs <;> simp_all

/-- Witness for C1 at a concrete input. -/
theorem sendPayload_spec_witness :
    ("title" ∈ payloadKeys (buildPayload "x" (some "T") none none)) ↔
      (∃ s, (some "T" : Option String) = some s ∧ s ≠ "") :=
  (sendPayload_spec "x" (some "T") none none).2.1

/-! ## More Python string primitives -/

/-- Whitespace as removed by Python's `str.strip()` (the ASCII whitespace
characters: space, tab, newline, carriage return, vertical tab, form feed). -/
def pyIsSpace (c : Char) : Bool :=
  c == ' ' || c == '\t' || c == '\n' || c == '\r' || c == Char.ofNat 11 || c == Char.ofNat 12

/-- Python `str.strip()`: drop leading and trailing whitespace. -/
def pyStrip (s : String) : String :=
  ⟨((s.data.dropWhile pyIsSpace).reverse.dropWhile pyIsSpace).reverse⟩

/-- Python `str.upper()` (ASCII case mapping, character by character). -/
def pyUpper (s : String) : String := ⟨s.data.map Char.toUpper⟩

/-- The data of an appended string is the appended data. -/
theorem dataAppend (a b : String) : (a ++ b).data = a.data ++ b.data := rfl

/-- Substring containment, stated on the underlying character lists. -/
def containsSubstring (hay needle : String) : Prop :=
  ∃ pre post : List Char, hay.data = pre ++ needle.data ++ post

/-- A string whose left part has non-empty data is non-empty. -/
theorem append_ne_empty_left (a b : String) (h : a.data ≠ []) : a ++ b ≠ "" := by
  intro hab
  apply h
  have hd : (a ++ b).data = [] := by rw [hab]
  rw [dataAppend] at hd
  exact (List.append_eq_nil.mp hd).1

/-! ## Credential validation (config_flow.py, validate_input) -/

/-- Outcome of the `requests.post` test call made inside `validate_input`:
either an HTTP response with a status code and body, or one of the
exception classes the code distinguishes. -/
inductive RequestOutcome where
  | response (status : Nat) (body : String)
  | timeout
  | connectionError
  | requestException (err : String)
deriving DecidableEq, Repr

/-- The two error kinds raised by `validate_input` (config_flow.py).
`invalidAuth` carries the optional message of the raise site. -/
inductive ValidationError where
  | invalidAuth (msg : Option String)
  | cannotConnect (msg : String)
deriving DecidableEq, Repr

/-- The dictionary returned by `validate_input` on success. -/
structure ValidateInfo where
  title : String
deriving DecidableEq, Repr

/-- Title derivation at the end of `validate_input` (config_flow.py lines
189-193): strip the optional custom name; use the stripped name when truthy,
otherwise synthesize from the upper-cased device id. -/
def deriveTitle (name : Option String) (deviceId : String) : String :=
  let customName := pyStrip (name.getD "")
  if customName ≠ "" then customName
  else "Notify! Alert (" ++ pyUpper deviceId ++ ")"

/-- Shallow embedding of `validate_input` (config_flow.py lines 124-195),
parameterized by the outcome of the HTTP test request. Status checks run in
source order: 401/403, then 404, then any non-200; the three `except`
clauses around the request map the transport failures. The `raise` sites
inside the `try` are HomeAssistantError subclasses, not requests exceptions,
so they are not re-caught by the `except` clauses. -/
def validateInput (deviceId token : String) (name : Option String)
    (outcome : RequestOutcome) : Except ValidationError ValidateInfo :=
  match outcome with
  | .timeout => .error (.cannotConnect "Connection to Notify API timed out")
  | .connectionError => .error (.cannotConnect "Could not connect to Notify API")
  | .requestException err => .error (.cannotConnect ("Unexpected error: " ++ err))
  | .response status _ =>
      if status = 401 ∨ status = 403 then .error (.invalidAuth none)
      else if status = 404 then .error (.invalidAuth (some "Device or group ID not found"))
      else if status ≠ 200 then
        .error (.cannotConnect ("API returned status " ++ toString status))
      else .ok { title := deriveTitle name deviceId }

/-- Claim C2: statuses 401, 403, 404 yield InvalidAuth and never
CannotConnect; any other non-200 status yields CannotConnect with a message
containing the status code; status 200 succeeds. -/
theorem validate_status_classification (d tok : String) (n : Option String)
    (s : Nat) (body : String) :
    (s = 401 ∨ s = 403 ∨ s = 404 →
      (∃ m, validateInput d tok n (.response s body) = .error (.invalidAuth m)) ∧
      ∀ m, validateInput d tok n (.response s body) ≠ .error (.cannotConnect m)) ∧
    (s ≠ 200 → s ≠ 401 → s ≠ 403 → s ≠ 404 →
      validateInput d tok n (.response s body) =
        .error (.cannotConnect ("API returned status " ++ toString s)) ∧
      containsSubstring ("API returned status " ++ toString s) (toString s)) ∧
    (s = 200 →
      validateInput d tok n (.response s body) = .ok { title := deriveTitle n d }) := by
  refine ⟨?_, ?_, ?_⟩
  · rintro (rfl | rfl | rfl) <;>
      simp [validateInput]
  · intro h200 h401 h403 h404
    refine ⟨by simp [validateInput, h200, h401, h403, h404], ?_⟩
    exact ⟨"API returned status ".data, [], by rw [dataAppend]; simp⟩
  · rintro rfl
    simp [validateInput]

/-- Witness for C2 at statuses 401, 500 and 200. -/
theorem validate_status_classification_witness :
    ((∃ m, validateInput "d" "t" none (.response 401 "b") = .error (.invalidAuth m)) ∧
      ∀ m, validateInput "d" "t" none (.response 401 "b") ≠ .error (.cannotConnect m)) ∧
    (validateInput "d" "t" none (.response 500 "b") =
        .error (.cannotConnect ("API returned status " ++ toString 500)) ∧
      containsSubstring ("API returned status " ++ toString 500) (toString 500)) ∧
    validateInput "d" "t" none (.response 200 "b") = .ok { title := deriveTitle none "d" } :=
  ⟨(validate_status_classification "d" "t" none 401 "b").1 (Or.inl rfl),
   (validate_status_classification "d" "t" none 500 "b").2.1
     (by decide) (by decide) (by decide) (by decide),
   (validate_status_classification "d" "t" none 200 "b").2.2 rfl⟩

/-- Claim C3: each transport-level failure makes `validate_input` fail with
CannotConnect and never InvalidAuth; the timeout message contains
"timed out", the connection-error message is the fixed "Could not connect"
text, and any other request exception wraps the underlying error text. -/
theorem validate_transport_failures (d tok : String) (n : Option String) (err : String) :
    validateInput d tok n .timeout =
      .error (.cannotConnect "Connection to Notify API timed out") ∧
    containsSubstring "Connection to Notify API timed out" "timed out" ∧
    validateInput d tok n .connectionError =
      .error (.cannotConnect "Could not connect to Notify API") ∧
    validateInput d tok n (.requestException err) =
      .error (.cannotConnect ("Unexpected error: " ++ err)) ∧
    containsSubstring ("Unexpected error: " ++ err) err ∧
    (∀ o : RequestOutcome,
      o = .timeout ∨ o = .connectionError ∨ o = .requestException err →
      ∀ m, validateInput d tok n o ≠ .error (.invalidAuth m)) := by
  refine ⟨rfl, ⟨"Connection to Notify API ".data, [], by decide⟩, rfl, rfl,
    ⟨"Unexpected error: ".data, [], by rw [dataAppend]; simp⟩, ?_⟩
  rintro o (rfl | rfl | rfl) <;> intro m <;> simp [validateInput]

/-- Witness for C3: the never-InvalidAuth part applied at the timeout outcome. -/
theorem validate_transport_failures_witness :
    validateInput "d" "t" none .timeout ≠ .error (.invalidAuth none) :=
  (validate_transport_failures "d" "t" none "boom").2.2.2.2.2 .timeout (Or.inl rfl) none

/-- Counterexample to claim C5 as stated: with the custom name " Dan " (which
is non-blank after stripping) the derived title is the stripped name "Dan",
not the user-supplied name verbatim. -/
theorem deriveTitle_not_verbatim :
    pyStrip " Dan " ≠ "" ∧
    deriveTitle (some " Dan ") "abc123" ≠ " Dan " ∧
    deriveTitle (some " Dan ") "abc123" = "Dan" := by
  refine ⟨by decide, by decide, by decide⟩

/-- Claim C5 (amended): on success the derived title is the custom name with
surrounding whitespace stripped when that stripped name is non-blank, and
otherwise "Notify! Alert (" ++ device_id uppercased ++ ")"; an empty custom
name with device_id "abc123" gives "Notify! Alert (ABC123)", and the derived
title is always non-empty. -/
theorem deriveTitle_spec (name : Option String) (d : String) :
    (pyStrip (name.getD "") ≠ "" → deriveTitle name d = pyStrip (name.getD "")) ∧
    (pyStrip (name.getD "") = "" →
      deriveTitle name d = "Notify! Alert (" ++ pyUpper d ++ ")") ∧
    deriveTitle (some "") "abc123" = "Notify! Alert (ABC123)" ∧
    deriveTitle name d ≠ "" := by
  refine ⟨fun h => by simp [deriveTitle, h], fun h => by simp [deriveTitle, h],
    by decide, ?_⟩
  by_cases h : pyStrip (name.getD "") = ""
  · simp only [deriveTitle, h]
    exact append_ne_empty_left _ _ (by rw [dataAppend]; simp)
  · simp [deriveTitle, h]

/-- Witness for C5 at a concrete stripped-nonblank name. -/
theorem deriveTitle_spec_witness :
    deriveTitle (some "Bob") "abc123" = pyStrip "Bob" :=
  (deriveTitle_spec (some "Bob") "abc123").1 (by decide)

/-! ## Service-name derivation and teardown (custom_components/notify_api/init) -/

/-- Python `str.lower()` (ASCII case mapping, character by character). -/
def pyLower (s : String) : String := ⟨s.data.map Char.toLower⟩

/-- Python single-character `str.replace(a, b)` with a one-character
replacement. -/
def pyReplaceChar (s : String) (a b : Char) : String :=
  ⟨s.data.map fun c => if c = a then b else c⟩

/-- Python single-character `str.replace(a, "")`: delete every occurrence. -/
def pyDeleteChar (s : String) (a : Char) : String :=
  ⟨s.data.filter fun c => c ≠ a⟩

/-- Python slice `s[:n]`. -/
def pyTake (s : String) (n : Nat) : String := ⟨s.data.take n⟩

/-- The friendly-name computation of `async_setup_entry` (source line 100):
`entry.title.lower().replace(" ", "_").replace("!", "").replace("(", "")
.replace(")", "").replace(".", "")`, applied in source order. -/
def friendlyName (title : String) : String :=
  pyDeleteChar (pyDeleteChar (pyDeleteChar (pyDeleteChar
    (pyReplaceChar (pyLower title) ' ' '_') '!') '(') ')') '.'

/-- The registered service name of `async_setup_entry` (source line 101):
the friendly name when truthy, else `f"notify_api_{entry.entry_id[:8]}"`. -/
def serviceName (title entryId : String) : String :=
  let friendly := friendlyName title
  if friendly ≠ "" then friendly else "notify_api_" ++ pyTake entryId 8

/-- The service name that `async_unload_entry` removes (source line 170):
`f"{DOMAIN}_{entry.entry_id[:8]}"`, independent of the entry title. -/
def unloadServiceName (entryId : String) : String :=
  DOMAIN ++ "_" ++ pyTake entryId 8

/-- The credential record stored in the process-wide table
(`hass.data[DOMAIN][entry.entry_id]`, source lines 92-95). -/
structure Credentials where
  deviceId : String
  token : String
deriving DecidableEq, Repr

/-- The effect of `hass.data[DOMAIN].pop(entry.entry_id, None)` in
`async_unload_entry` (source line 183) on the credential table. -/
def removeEntry (table : List (String × Credentials)) (entryId : String) :
    List (String × Credentials) :=
  table.filter fun kv => kv.1 ≠ entryId

/-- Looking up a removed entry finds nothing. -/
theorem lookup_removeEntry (table : List (String × Credentials)) (e : String) :
    (removeEntry table e).lookup e = none := by
  induction table with
  | nil => rfl
  | cons kv t ih =>
      rcases kv with ⟨k, v⟩
      by_cases h : k = e
      · have h1 : removeEntry ((k, v) :: t) e = removeEntry t e := by
          simp [removeEntry, List.filter_cons, h]
        rw [h1]; exact ih
      · have h1 : removeEntry ((k, v) :: t) e = (k, v) :: removeEntry t e := by
          simp [removeEntry, List.filter_cons, h]
        have hne : (e == k) = false := by simp [Ne.symm h]
        rw [h1]
        simp [List.lookup, hne, ih]

/-- Counterexample to claim C6 as stated: the title "Dan's Phone!" yields
the service name "dan's_phone", not "dans_phone" — the apostrophe is not
among the stripped punctuation characters. -/
theorem friendlyName_keeps_apostrophe :
    friendlyName "Dan's Phone!" = "dan's_phone" ∧
    friendlyName "Dan's Phone!" ≠ "dans_phone" := by
  refine ⟨by decide, by decide⟩

/-- Claim C6 (amended): the registered service name is the title lower-cased
with spaces replaced by underscores and the characters '!', '(', ')', '.'
stripped; when that result is empty a fallback name containing the first 8
characters of the entry identifier is used; "Dan's Phone!" yields
"dan's_phone". -/
theorem serviceName_spec (title entryId : String) :
    (friendlyName title ≠ "" → serviceName title entryId = friendlyName title) ∧
    (friendlyName title = "" →
      serviceName title entryId = "notify_api_" ++ pyTake entryId 8 ∧
      containsSubstring (serviceName title entryId) (pyTake entryId 8)) ∧
    friendlyName "Dan's Phone!" = "dan's_phone" := by
  refine ⟨fun h => by simp [serviceName, h], fun h => ?_, by decide⟩
  have hs : serviceName title entryId = "notify_api_" ++ pyTake entryId 8 := by
    simp [serviceName, h]
  refine ⟨hs, ?_⟩
  rw [hs]
  exact ⟨"notify_api_".data, [], by rw [dataAppend]; simp⟩

/-- Witness for C6 at concrete titles. -/
theorem serviceName_spec_witness :
    serviceName "My Phone" "abcdef1234" = friendlyName "My Phone" ∧
    serviceName "" "abcdef1234" = "notify_api_" ++ pyTake "abcdef1234" 8 :=
  ⟨(serviceName_spec "My Phone" "abcdef1234").1 (by decide),
   ((serviceName_spec "" "abcdef1234").2.1 (by decide)).1⟩

/-- Claim C9, behavior at a failing input: with title "Dan's Phone!" and
entry id "abcdef1234", setup registers service "dan's_phone" but unload
removes "notify_api_abcdef12" — a different name — while the credential
table entry itself is deleted as claimed. -/
theorem unload_entry_behavior :
    serviceName "Dan's Phone!" "abcdef1234" = "dan's_phone" ∧
    unloadServiceName "abcdef1234" = "notify_api_abcdef12" ∧
    serviceName "Dan's Phone!" "abcdef1234" ≠ unloadServiceName "abcdef1234" ∧
    (∀ (table : List (String × Credentials)) (e : String),
      (removeEntry table e).lookup e = none) := by
  exact ⟨by decide, by decide, by decide, lookup_removeEntry⟩

/-! ## Sender exception handling (notify.py, _send_notification) -/

/-- The Python exceptions that can escape the `requests.post` call inside
`_send_notification`: the three requests exception classes the code names,
plus any other exception. -/
inductive PyExc where
  | timeoutExc
  | connectionErrorExc
  | requestExceptionExc (msg : String)
  | otherExc (msg : String)
deriving DecidableEq, Repr

/-- The exception classes named by the four `except` clauses of
`_send_notification`, in source order (notify.py lines 247-254). -/
inductive ExcClass where
  | timeoutClass
  | connectionErrorClass
  | requestExceptionClass
  | exceptionClass
deriving DecidableEq, Repr

/-- Python exception matching: `requests.exceptions.Timeout` and
`requests.exceptions.ConnectionError` are subclasses of
`requests.exceptions.RequestException`, and every exception is a subclass
of `Exception`. -/
def excMatches (e : PyExc) (c : ExcClass) : Bool :=
  match e, c with
  | .timeoutExc, .timeoutClass => true
  | .timeoutExc, .requestExceptionClass => true
  | .connectionErrorExc, .connectionErrorClass => true
  | .connectionErrorExc, .requestExceptionClass => true
  | .requestExceptionExc _, .requestExceptionClass => true
  | _, .exceptionClass => true
  | _, _ => false

/-- The handler chain of `_send_notification`, in source order. -/
def sendHandlers : List ExcClass :=
  [.timeoutClass, .connectionErrorClass, .requestExceptionClass, .exceptionClass]

/-- What `_send_notification` logs; each constructor is one `_LOGGER` call
site in notify.py lines 237-254. -/
inductive SendLog where
  | success (deviceId : String)
  | failedStatus (deviceId : String) (status : Nat) (body : String)
  | timeoutLog (deviceId : String)
  | connectionErrorLog (deviceId : String)
  | requestExceptionLog (deviceId : String) (msg : String)
  | unexpectedLog (deviceId : String) (msg : String)
deriving DecidableEq, Repr

/-- The message carried by an exception. -/
def excMsg : PyExc → String
  | .timeoutExc => ""
  | .connectionErrorExc => ""
  | .requestExceptionExc m => m
  | .otherExc m => m

/-- The body of the `except` clause selected for an exception. -/
def runHandler (deviceId : String) (e : PyExc) : ExcClass → SendLog
  | .timeoutClass => .timeoutLog deviceId
  | .connectionErrorClass => .connectionErrorLog deviceId
  | .requestExceptionClass => .requestExceptionLog deviceId (excMsg e)
  | .exceptionClass => .unexpectedLog deviceId (excMsg e)

/-- Shallow embedding of `_send_notification` (notify.py lines 182-254),
parameterized by the outcome of `requests.post`: either a response
(status, body) or a raised exception. An exception is dispatched to the
first matching `except` clause; an exception matched by no clause would
propagate to the caller as a `.error` value. The built payload is returned
in the success log position only to tie the two halves of the function
together; the code logs, then returns None. -/
def sendNotification (deviceId : String) (message : String)
    (title iconUrl groupType : Option String)
    (outcome : Except PyExc (Nat × String)) : Except PyExc SendLog :=
  let _payload := buildPayload message title iconUrl groupType
  match outcome with
  | .ok (status, body) =>
      if status = 200 then .ok (.success deviceId)
      else .ok (.failedStatus deviceId status body)
  | .error e =>
      match sendHandlers.find? (fun c => excMatches e c) with
      | some c => .ok (runHandler deviceId e c)
      | none => .error e

/-- Every exception is matched by some handler in the chain: the final
broad `except Exception` clause catches everything. -/
theorem sendHandlers_exhaustive (e : PyExc) :
    (sendHandlers.find? (fun c => excMatches e c)).isSome = true := by
  cases e <;> rfl

/-- Claim C4: for every input and every HTTP outcome — any response status
or any raised exception — `_send_notification` returns normally (never
propagates an exception); the outcome is observable only as a log entry. -/
theorem sendNotification_never_raises (deviceId message : String)
    (title iconUrl groupType : Option String)
    (outcome : Except PyExc (Nat × String)) :
    ∃ log : SendLog,
      sendNotification deviceId message title iconUrl groupType outcome = .ok log := by
  rcases outcome with e | ⟨status, body⟩
  · have h := sendHandlers_exhaustive e
    rcases hf : sendHandlers.find? (fun c => excMatches e c) with _ | c
    · rw [hf] at h; simp at h
    · exact ⟨runHandler deviceId e c, by simp [sendNotification, hf]⟩
  · by_cases h : status = 200
    · exact ⟨.success deviceId, by simp [sendNotification, h]⟩
    · exact ⟨.failedStatus deviceId status body, by simp [sendNotification, h]⟩

/-! ## send_message (notify.py, NotifyAPIService.send_message) -/

/-- Truthiness of the Python `data` value (`dict | None`): `None` and the
empty dict are falsy. -/
def dictTruthy : Option (List (String × String)) → Bool
  | none => false
  | some d => d ≠ []

/-- Shallow embedding of `send_message` (notify.py lines 139-180) up to the
payload it hands to `_send_notification`: `title = kwargs.get("title")`,
`data = kwargs.get("data") or {}`, then `icon_url = data.get("icon_url")`
and `group_type = data.get("group_type")`. The message argument defaults to
the empty string in the source signature. -/
def sendMessagePayload (message : String) (title : Option String)
    (data : Option (List (String × String))) : List (String × String) :=
  let d := if dictTruthy data then data.getD [] else []
  let iconUrl := d.lookup "icon_url"
  let groupType := d.lookup "group_type"
  buildPayload message title iconUrl groupType

/-- Claim C10: a falsy `data` argument (absent/None or the empty dict)
behaves exactly like an empty dict — the lookups of icon_url and
group_type return nothing and the payload omits "iconUrl" and "groupType";
with all arguments at their defaults the payload is exactly
`{"text": ""}`. -/
theorem sendMessage_falsy_data (m : String) (t : Option String)
    (data : Option (List (String × String))) :
    (dictTruthy data = false →
      sendMessagePayload m t data = sendMessagePayload m t (some []) ∧
      "iconUrl" ∉ payloadKeys (sendMessagePayload m t data) ∧
      "groupType" ∉ payloadKeys (sendMessagePayload m t data)) ∧
    sendMessagePayload "" none none = [("text", "")] := by
  refine ⟨fun h => ?_, by decide⟩
  have h1 : sendMessagePayload m t data = buildPayload m t none none := by
    simp [sendMessagePayload, h]
  have h2 : sendMessagePayload m t (some []) = buildPayload m t none none := by
    simp [sendMessagePayload, dictTruthy]
  refine ⟨h1.trans h2.symm, ?_, ?_⟩ <;> rw [h1, keys_buildPayload] <;>
    split_ifs <;> simp_all [strTruthy]

/-- Witness for C10 with data = None. -/
theorem sendMessage_falsy_data_witness :
    sendMessagePayload "hi" (some "T") none = sendMessagePayload "hi" (some "T") (some []) :=
  ((sendMessage_falsy_data "hi" (some "T") none).1 rfl).1

/-! ## Config flow and options flow (config_flow.py) -/

/-- The form data submitted on the user step (STEP_USER_DATA_SCHEMA):
required device_id and token, optional name. -/
structure UserInput where
  deviceId : String
  token : String
  name : Option String
deriving DecidableEq, Repr

/-- Behavior of the awaited `validate_input` call as seen by the flows:
it either returns info or raises one of the exceptions the flows catch.
`raisesOther` covers any exception that is neither CannotConnect nor
InvalidAuth (caught by the broad `except Exception` clause). -/
inductive ValidationBehavior where
  | ok (info : ValidateInfo)
  | raisesCannotConnect (msg : String)
  | raisesInvalidAuth (msg : Option String)
  | raisesOther (msg : String)
deriving DecidableEq, Repr

/-- The behavior of the embedded `validate_input` at a request outcome,
as one of the flow-visible cases. -/
def behaviorOf (deviceId token : String) (name : Option String)
    (outcome : RequestOutcome) : ValidationBehavior :=
  match validateInput deviceId token name outcome with
  | .ok info => .ok info
  | .error (.cannotConnect m) => .raisesCannotConnect m
  | .error (.invalidAuth m) => .raisesInvalidAuth m

/-- Result of the user step: either a created config entry or the form
shown again. The `retained` field carries the submitted values that the
form is re-presented with. Modelled from the spec: the host's form
machinery re-presents previously entered values; the code itself passes
only the schema and the errors dictionary to `async_show_form`. -/
inductive FlowResult where
  | createEntry (title : String) (data : UserInput)
  | showForm (stepId : String) (errors : List (String × String)) (retained : Option UserInput)
deriving DecidableEq, Repr

/-- Shallow embedding of `ConfigFlow.async_step_user` (config_flow.py lines
231-312): with no input, show the form with no errors; with input, validate
and either create the entry with the derived title and the submitted data,
or set exactly one error under the "base" key — "cannot_connect",
"invalid_auth" or "unknown" — and show the form again. -/
def asyncStepUser (userInput : Option UserInput) (v : ValidationBehavior) : FlowResult :=
  match userInput with
  | none => .showForm "user" [] none
  | some input =>
      match v with
      | .ok info => .createEntry info.title input
      | .raisesCannotConnect _ => .showForm "user" [("base", "cannot_connect")] (some input)
      | .raisesInvalidAuth _ => .showForm "user" [("base", "invalid_auth")] (some input)
      | .raisesOther _ => .showForm "user" [("base", "unknown")] (some input)

/-- Claim C8: whenever validation fails, no entry is created, the result is
the re-shown form retaining the submitted input with exactly one error,
keyed "base" (never per-field), and the code is "cannot_connect" for
CannotConnect, "invalid_auth" for InvalidAuth and "unknown" for any other
exception. -/
theorem user_step_failure (input : UserInput) (v : ValidationBehavior)
    (hv : ∀ info, v ≠ .ok info) :
    (∀ t d, asyncStepUser (some input) v ≠ .createEntry t d) ∧
    (∃ code,
      asyncStepUser (some input) v = .showForm "user" [("base", code)] (some input) ∧
      (code = "cannot_connect" ↔ ∃ m, v = .raisesCannotConnect m) ∧
      (code = "invalid_auth" ↔ ∃ m, v = .raisesInvalidAuth m) ∧
      (code = "unknown" ↔ ∃ m, v = .raisesOther m)) := by
  cases v with
  | ok info => exact absurd rfl (hv info)
  | raisesCannotConnect m =>
      exact ⟨by simp [asyncStepUser], "cannot_connect", rfl, by simp, by simp, by simp⟩
  | raisesInvalidAuth m =>
      exact ⟨by simp [asyncStepUser], "invalid_auth", rfl, by simp, by simp, by simp⟩
  | raisesOther m =>
      exact ⟨by simp [asyncStepUser], "unknown", rfl, by simp, by simp, by simp⟩

/-- Witness for C8: a timeout during validation of a concrete submission
creates no entry. -/
theorem user_step_failure_witness :
    asyncStepUser (some ⟨"dev", "tok", none⟩) (behaviorOf "dev" "tok" none .timeout) ≠
      .createEntry "x" ⟨"dev", "tok", none⟩ :=
  (user_step_failure ⟨"dev", "tok", none⟩ (behaviorOf "dev" "tok" none .timeout)
    (fun info => by simp [behaviorOf, validateInput])).1 "x" ⟨"dev", "tok", none⟩

/-- The optional presentation defaults stored in `entry.options`. -/
structure EntryOptions where
  defaultTitle : String
  defaultIconUrl : String
  defaultGroupType : String
deriving DecidableEq, Repr

/-- A config entry as the options flow sees it: host-assigned identifier
and title, the credential data, and the options. -/
structure ConfigEntry where
  entryId : String
  title : String
  data : Credentials
  options : EntryOptions
deriving DecidableEq, Repr

/-- The form data submitted on the options step: required device_id and
token, optional defaults. -/
structure OptionsInput where
  deviceId : String
  token : String
  defaultTitle : Option String
  defaultIconUrl : Option String
  defaultGroupType : Option String
deriving DecidableEq, Repr

/-- The host's `async_update_entry` called with both `data` and `options`:
each is replaced wholesale; the identifier and title are untouched. -/
def asyncUpdateEntry (entry : ConfigEntry) (newData : Credentials)
    (newOptions : EntryOptions) : ConfigEntry :=
  { entry with data := newData, options := newOptions }

/-- Result of the options step: either the entry was updated and the flow
finished, or the form is shown again with errors. -/
inductive OptionsFlowResult where
  | finished (updatedEntry : ConfigEntry)
  | showFormInit (errors : List (String × String))
deriving DecidableEq, Repr

/-- Shallow embedding of `OptionsFlowHandler.async_step_init` (config_flow.py
lines 370-482) on a submission: validate, then split the submission into
core credentials (`core_data`: device_id, token) and optional defaults
(`options_data`), update the entry with both groups, and finish; on a
validation failure set one "base" error and show the form again. -/
def optionsStepInit (old : ConfigEntry) (input : OptionsInput)
    (v : ValidationBehavior) : OptionsFlowResult :=
  match v with
  | .ok _ =>
      let coreData : Credentials := { deviceId := input.deviceId, token := input.token }
      let optionsData : EntryOptions :=
        { defaultTitle := input.defaultTitle.getD ""
          defaultIconUrl := input.defaultIconUrl.getD ""
          defaultGroupType := input.defaultGroupType.getD "" }
      .finished (asyncUpdateEntry old coreData optionsData)
  | .raisesCannotConnect _ => .showFormInit [("base", "cannot_connect")]
  | .raisesInvalidAuth _ => .showFormInit [("base", "invalid_auth")]
  | .raisesOther _ => .showFormInit [("base", "unknown")]

/-- Claim C7: a successful reconfiguration replaces the stored credentials
wholesale — the updated entry's device_id and token are exactly the
submitted ones, whatever the old entry held, and the credentials and the
optional defaults are persisted as the two separate groups `data` and
`options`. -/
theorem options_step_wholesale (old : ConfigEntry) (input : OptionsInput)
    (info : ValidateInfo) :
    optionsStepInit old input (.ok info) =
      .finished
        { entryId := old.entryId
          title := old.title
          data := { deviceId := input.deviceId, token := input.token }
          options :=
            { defaultTitle := input.defaultTitle.getD ""
              defaultIconUrl := input.defaultIconUrl.getD ""
              defaultGroupType := input.defaultGroupType.getD "" } } ∧
    (∀ old2 : ConfigEntry, old2.entryId = old.entryId → old2.title = old.title →
      optionsStepInit old2 input (.ok info) = optionsStepInit old input (.ok info)) := by
  refine ⟨rfl, fun old2 h1 h2 => ?_⟩
  simp [optionsStepInit, asyncUpdateEntry, h1, h2]

/-- Witness for C7 at concrete old entries and a concrete submission: two
entries with different stored credentials update to the same result. -/
theorem options_step_wholesale_witness :
    optionsStepInit ⟨"e1", "T", ⟨"oldDev", "oldTok"⟩, ⟨"", "", ""⟩⟩
        ⟨"newDev", "newTok", none, none, none⟩ (.ok ⟨"T"⟩) =
      .finished ⟨"e1", "T", ⟨"newDev", "newTok"⟩, ⟨"", "", ""⟩⟩ ∧
    optionsStepInit ⟨"e1", "T", ⟨"otherDev", "otherTok"⟩, ⟨"a", "b", "c"⟩⟩
        ⟨"newDev", "newTok", none, none, none⟩ (.ok ⟨"T"⟩) =
      optionsStepInit ⟨"e1", "T", ⟨"oldDev", "oldTok"⟩, ⟨"", "", ""⟩⟩
        ⟨"newDev", "newTok", none, none, none⟩ (.ok ⟨"T"⟩) :=
  ⟨(options_step_wholesale ⟨"e1", "T", ⟨"oldDev", "oldTok"⟩, ⟨"", "", ""⟩⟩
      ⟨"newDev", "newTok", none, none, none⟩ ⟨"T"⟩).1,
   (options_step_wholesale ⟨"e1", "T", ⟨"oldDev", "oldTok"⟩, ⟨"", "", ""⟩⟩
      ⟨"newDev", "newTok", none, none, none⟩ ⟨"T"⟩).2
     ⟨"e1", "T", ⟨"otherDev", "otherTok"⟩, ⟨"a", "b", "c"⟩⟩ rfl rfl⟩

end NotifyAPI
